import Mathlib

/-!
Verification of the SpotCheck retry scheduler (limacharlie/SpotCheck.py).

The development embeds the scheduler in two layers, both read off the
source of SpotCheck._performSpotChecks:

1. `visit`: one iteration of the worker loop after a successful pop of a
   sensor from the queue (the platform filter, the tag filter, the
   online check, the check callback and the interpretation of its
   result, lines 99-153 of SpotCheck.py).  The outcomes of the external
   calls sensor.isOnline() and cb_check(sensor) are inputs; the record
   it returns lists the callback invocations in order, the control-flow
   outcome, which sensor attributes were fetched, and how long the
   worker slept synchronously.

2. `Step`: a labeled transition system for the whole scheduler state
   (work queue, pending-recheck counter, outstanding spawn_later timers,
   stop flag, worker phases), with one transition per shared-state
   interaction of the loop: the pop and its empty-queue handling
   (lines 86-97), the per-visit outcomes, the deferred re-check
   `_doReCheck` (lines 121-127), the synchronous false-result retry
   sleep (lines 142-149), and the stop flag (lines 68-72, 86).
-/

namespace SpotCheckModel

/-- Sensor attributes consumed by the scheduler: identifier, the value
of getInfo()["plat"], and the value of getTags(). -/
structure Sensor where
  sid : Nat
  plat : String
  stags : List String
deriving DecidableEq

/-- Constructor-level configuration of a SpotCheck instance.  The four
optional callbacks are modelled by presence flags, since the scheduler
only branches on whether each callback is None. -/
structure Config where
  isWindows : Bool
  isLinux : Bool
  isMacos : Bool
  tags : Option (List String)
  cbOnStartCheck : Bool
  cbOnCheckDone : Bool
  cbOnOffline : Bool
  cbOnError : Bool
  nSecBetweenOnlineChecks : Nat
deriving DecidableEq

/-- Result of the caller-supplied check callback: a boolean return, or a
raised exception carrying its formatted traceback. -/
inductive CheckOutcome where
  | ok (b : Bool)
  | exn (detail : String)
deriving DecidableEq

/-- A callback invocation observed during a visit. -/
inductive Event where
  | onStartCheck (s : Sensor)
  | onCheckDone (s : Sensor)
  | onOffline (s : Sensor)
  | onError (s : Sensor) (detail : String)
deriving DecidableEq

/-- How one queue visit of a sensor ends. -/
inductive VisitEnd where
  | dropped
  | scheduledRecheck
  | reEnqueuedAfterSleep
  | finished
deriving DecidableEq

/-- Line 100: the platform is fetched iff some platform flag is False. -/
def consultsPlatform (cfg : Config) : Bool :=
  cfg.isWindows == false || cfg.isLinux == false || cfg.isMacos == false

/-- Lines 100-107: the platform filter drops the sensor. -/
def platformDropped (cfg : Config) (s : Sensor) : Bool :=
  if consultsPlatform cfg then
    if s.plat == "windows" && !cfg.isWindows then true
    else if s.plat == "linux" && !cfg.isLinux then true
    else if s.plat == "macos" && !cfg.isMacos then true
    else false
  else false

/-- Lines 110-113: the tag filter drops the sensor (some required tag is
missing from the sensor tags). -/
def tagsDropped (cfg : Config) (s : Sensor) : Bool :=
  match cfg.tags with
  | none => false
  | some ts => !(ts.all fun x => s.stags.contains x)

/-- Observable effects of one queue visit of a sensor. -/
structure VisitResult where
  events : List Event
  outcome : VisitEnd
  platformFetched : Bool
  tagsFetched : Bool
  checkInvoked : Bool
  sleptSeconds : Nat
deriving DecidableEq

/-- Lines 99-153 of SpotCheck.py: the body of the worker loop once a
sensor has been popped.  `online` is the result of sensor.isOnline();
`chk` is the behaviour of cb_check(sensor).  Note that on an exception
the source sets result = True after calling cb_on_error, so control
falls through to the cb_on_check_done invocation at line 152. -/
def visit (cfg : Config) (s : Sensor) (online : Bool) (chk : CheckOutcome) : VisitResult :=
  if platformDropped cfg s then
    ⟨[], .dropped, consultsPlatform cfg, false, false, 0⟩
  else if tagsDropped cfg s then
    ⟨[], .dropped, consultsPlatform cfg, cfg.tags.isSome, false, 0⟩
  else if !online then
    ⟨(if cfg.cbOnOffline then [Event.onOffline s] else []), .scheduledRecheck,
      consultsPlatform cfg, cfg.tags.isSome, false, 0⟩
  else
    let startEvents := if cfg.cbOnStartCheck then [Event.onStartCheck s] else []
    match chk with
    | .exn d =>
        ⟨startEvents ++ (if cfg.cbOnError then [Event.onError s d] else [])
            ++ (if cfg.cbOnCheckDone then [Event.onCheckDone s] else []),
          .finished, consultsPlatform cfg, cfg.tags.isSome, true, 0⟩
    | .ok false =>
        ⟨startEvents ++ (if cfg.cbOnOffline then [Event.onOffline s] else []),
          .reEnqueuedAfterSleep, consultsPlatform cfg, cfg.tags.isSome, true,
          cfg.nSecBetweenOnlineChecks⟩
    | .ok true =>
        ⟨startEvents ++ (if cfg.cbOnCheckDone then [Event.onCheckDone s] else []),
          .finished, consultsPlatform cfg, cfg.tags.isSome, true, 0⟩

/-- Control position of one worker greenlet inside _performSpotChecks. -/
inductive WPhase where
  | atTop
  | lockCheck
  | sleeping
  | holding (s : Sensor)
  | retrySleeping (s : Sensor)
  | exited
deriving DecidableEq

/-- Shared scheduler state: the gevent queue _sensorsLeftToCheck, the
counter _pendingReCheck, the outstanding spawn_later re-check timers
(delay and sensor), the stop event, and the phase of each worker. -/
structure SCState where
  queue : List Sensor
  pending : Int
  timers : List (Nat × Sensor)
  stopFlag : Bool
  workers : List WPhase
deriving DecidableEq

/-- State after start(): every listed sensor enqueued once, counter at
zero, no timers, stop flag clear, nConcurrent workers at the loop top. -/
def startState (sensors : List Sensor) (nConcurrent : Nat) : SCState :=
  ⟨sensors, 0, [], false, List.replicate nConcurrent .atTop⟩

/-- Transition labels, one per shared-state interaction of the loop. -/
inductive StepLabel where
  | popOk (w : Nat) (s : Sensor)
  | popFail (w : Nat)
  | exitDone (w : Nat)
  | backoff (w : Nat)
  | backoffWake (w : Nat)
  | dropSensor (w : Nat) (s : Sensor)
  | scheduleRecheck (w : Nat) (s : Sensor)
  | beginRetrySleep (w : Nat) (s : Sensor)
  | finishVisit (w : Nat) (s : Sensor)
  | retryWake (w : Nat) (s : Sensor)
  | fireRecheck (delay : Nat) (s : Sensor)
  | setStop
  | stopExit (w : Nat)
deriving DecidableEq

/-- Transitions performed while holding self lock (the two counter
mutations at lines 122-124 and 125-126, and the compound check at
lines 92-95). -/
def StepLabel.locked : StepLabel → Bool
  | .exitDone _ => true
  | .backoff _ => true
  | .scheduleRecheck _ _ => true
  | .fireRecheck _ _ => true
  | _ => false

/-- Small-step semantics of the scheduler.  Worker steps:
pop (line 88), the empty-queue lock check (lines 92-96), the visit
outcomes (lines 99-153), waking from the false-result sleep and
re-enqueuing (lines 147-148), exiting on the stop flag (line 86).
Environment steps: a spawn_later re-check firing (lines 121-124) and
stop() setting the flag (line 71). -/
inductive Step (cfg : Config) : SCState → StepLabel → SCState → Prop where
  | popOk {st : SCState} {w : Nat} {s : Sensor} {rest : List Sensor} :
      st.workers[w]? = some .atTop → st.stopFlag = false → st.queue = s :: rest →
      Step cfg st (.popOk w s)
        { st with queue := rest, workers := st.workers.set w (.holding s) }
  | popFail {st : SCState} {w : Nat} :
      st.workers[w]? = some .atTop → st.stopFlag = false → st.queue = [] →
      Step cfg st (.popFail w) { st with workers := st.workers.set w .lockCheck }
  | exitDone {st : SCState} {w : Nat} :
      st.workers[w]? = some .lockCheck → st.pending = 0 → st.queue = [] →
      Step cfg st (.exitDone w) { st with workers := st.workers.set w .exited }
  | backoff {st : SCState} {w : Nat} :
      st.workers[w]? = some .lockCheck → ¬(st.pending = 0 ∧ st.queue = []) →
      Step cfg st (.backoff w) { st with workers := st.workers.set w .sleeping }
  | backoffWake {st : SCState} {w : Nat} :
      st.workers[w]? = some .sleeping →
      Step cfg st (.backoffWake w) { st with workers := st.workers.set w .atTop }
  | dropSensor {st : SCState} {w : Nat} {s : Sensor} {online : Bool} {chk : CheckOutcome} :
      st.workers[w]? = some (.holding s) →
      (visit cfg s online chk).outcome = .dropped →
      Step cfg st (.dropSensor w s) { st with workers := st.workers.set w .atTop }
  | scheduleRecheck {st : SCState} {w : Nat} {s : Sensor} {online : Bool} {chk : CheckOutcome} :
      st.workers[w]? = some (.holding s) →
      (visit cfg s online chk).outcome = .scheduledRecheck →
      Step cfg st (.scheduleRecheck w s)
        { st with pending := st.pending + 1,
                  timers := (cfg.nSecBetweenOnlineChecks, s) :: st.timers,
                  workers := st.workers.set w .atTop }
  | beginRetrySleep {st : SCState} {w : Nat} {s : Sensor} {online : Bool} {chk : CheckOutcome} :
      st.workers[w]? = some (.holding s) →
      (visit cfg s online chk).outcome = .reEnqueuedAfterSleep →
      Step cfg st (.beginRetrySleep w s)
        { st with workers := st.workers.set w (.retrySleeping s) }
  | finishVisit {st : SCState} {w : Nat} {s : Sensor} {online : Bool} {chk : CheckOutcome} :
      st.workers[w]? = some (.holding s) →
      (visit cfg s online chk).outcome = .finished →
      Step cfg st (.finishVisit w s) { st with workers := st.workers.set w .atTop }
  | retryWake {st : SCState} {w : Nat} {s : Sensor} :
      st.workers[w]? = some (.retrySleeping s) →
      Step cfg st (.retryWake w s)
        { st with queue := st.queue ++ [s], workers := st.workers.set w .atTop }
  | fireRecheck {st : SCState} {d : Nat} {s : Sensor} {t1 t2 : List (Nat × Sensor)} :
      st.timers = t1 ++ (d, s) :: t2 →
      Step cfg st (.fireRecheck d s)
        { st with queue := st.queue ++ [s], pending := st.pending - 1,
                  timers := t1 ++ t2 }
  | setStop {st : SCState} :
      Step cfg st .setStop { st with stopFlag := true }
  | stopExit {st : SCState} {w : Nat} :
      st.workers[w]? = some .atTop → st.stopFlag = true →
      Step cfg st (.stopExit w) { st with workers := st.workers.set w .exited }

/-- Reachability from a given initial state. -/
inductive Reachable (cfg : Config) (init : SCState) : SCState → Prop where
  | refl : Reachable cfg init init
  | tail {st st' : SCState} {l : StepLabel} :
      Reachable cfg init st → Step cfg st l st' → Reachable cfg init st'

/-- Line 71 of stop(): setting the stop event. -/
def setStopFlag (st : SCState) : SCState := { st with stopFlag := true }

/-- Return condition of self threads join() (line 72 / line 83): the
gevent Group is empty, i.e. every worker greenlet has exited and every
spawn_later re-check greenlet added to the group has fired. -/
def joinDone (st : SCState) : Bool :=
  st.workers.all (fun w => w == WPhase.exited) && st.timers.isEmpty

/-- The counter _pendingReCheck always equals the number of outstanding
spawn_later re-check timers. -/
def pendingMatchesTimers (st : SCState) : Prop :=
  st.pending = (st.timers.length : Int)

lemma visit_platformFetched (cfg : Config) (s : Sensor) (online : Bool)
    (chk : CheckOutcome) :
    (visit cfg s online chk).platformFetched = consultsPlatform cfg := by
  unfold visit
  rcases chk with b | d
  · cases b <;> split <;> simp_all <;> split <;> simp_all <;> split <;> simp_all
  · split <;> simp_all <;> split <;> simp_all <;> split <;> simp_all

lemma visit_tagsFetched (cfg : Config) (s : Sensor) (online : Bool)
    (chk : CheckOutcome) (hp : platformDropped cfg s = false) :
    (visit cfg s online chk).tagsFetched = cfg.tags.isSome := by
  unfold visit
  rcases chk with b | d
  · cases b <;> cases online <;> simp [hp] <;> split <;> simp_all
  · cases online <;> simp [hp] <;> split <;> simp_all

lemma visit_dropped_iff (cfg : Config) (s : Sensor) (online : Bool)
    (chk : CheckOutcome) :
    (visit cfg s online chk).outcome = .dropped ↔
      (platformDropped cfg s = true ∨
        (platformDropped cfg s = false ∧ tagsDropped cfg s = true)) := by
  unfold visit
  rcases chk with b | d
  · cases b <;> split <;> simp_all <;> split <;> simp_all <;> split <;> simp_all
  · split <;> simp_all <;> split <;> simp_all <;> split <;> simp_all

lemma step_preserves_pendingMatchesTimers {cfg : Config} {st st' : SCState}
    {l : StepLabel} (h : Step cfg st l st') (hinv : pendingMatchesTimers st) :
    pendingMatchesTimers st' := by
  unfold pendingMatchesTimers at hinv ⊢
  cases h <;> simp_all <;> omega

lemma reachable_pendingMatchesTimers {cfg : Config} {sensors : List Sensor}
    {n : Nat} {st : SCState}
    (h : Reachable cfg (startState sensors n) st) : pendingMatchesTimers st := by
  induction h with
  | refl => rfl
  | tail _ hstep ih => exact step_preserves_pendingMatchesTimers hstep ih

lemma step_pending_change {cfg : Config} {st st' : SCState} {l : StepLabel}
    (h : Step cfg st l st') (hne : st'.pending ≠ st.pending) :
    l.locked = true ∧
      ((∃ w s, l = .scheduleRecheck w s ∧ st'.pending = st.pending + 1) ∨
        (∃ d s, l = .fireRecheck d s ∧ st'.pending = st.pending - 1)) := by
  cases h <;> simp_all [StepLabel.locked]

/-- A step that updates the phase of worker w0 and is observed to turn
worker w into .exited: either it is that very update, or it left the
phase of w alone. -/
lemma workers_set_exited {ws : List WPhase} {w w0 : Nat} {ph ph0 : WPhase}
    (h : ws[w]? = some ph) (hne : ph ≠ .exited)
    (h' : (ws.set w0 ph0)[w]? = some .exited) : w = w0 ∧ ph0 = .exited := by
  by_cases hw : w = w0
  · subst hw
    have hlt : w < ws.length := (List.getElem?_eq_some.mp h).1
    rw [List.getElem?_set_eq_of_lt ph0 hlt] at h'
    exact ⟨rfl, Option.some_inj.mp h'⟩
  · rw [List.getElem?_set_ne (fun hc => hw hc.symm)] at h'
    rw [h] at h'
    exact absurd (Option.some_inj.mp h') hne

/-- A step that updates the phase of worker w0 and changes the observed
phase of worker w must have w = w0. -/
lemma workers_set_changed {ws : List WPhase} {w w0 : Nat} {ph ph0 : WPhase}
    (h : ws[w]? = some ph) (h' : (ws.set w0 ph0)[w]? ≠ some ph) : w = w0 := by
  by_cases hw : w = w0
  · exact hw
  · exfalso
    apply h'
    rw [List.getElem?_set_ne (fun hc => hw hc.symm)]
    exact h

section ConcreteTrace

/-- Configuration used in the concrete executions: no filters, no
callbacks, default retry interval. -/
def exCfg : Config := ⟨true, true, true, none, false, false, false, false, 60⟩

/-- A single linux sensor with no tags. -/
def exSensor : Sensor := ⟨0, "linux", []⟩

/-- Initial state: one sensor, two workers. -/
def exInit : SCState := startState [exSensor] 2

def exSt1 : SCState := ⟨[], 0, [], false, [.holding exSensor, .atTop]⟩

def exSt2 : SCState := ⟨[], 0, [], false, [.retrySleeping exSensor, .atTop]⟩

def exSt3 : SCState := ⟨[], 0, [], false, [.retrySleeping exSensor, .lockCheck]⟩

def exSt4 : SCState := ⟨[], 0, [], false, [.retrySleeping exSensor, .exited]⟩

def exSt5 : SCState := ⟨[exSensor], 0, [], false, [.atTop, .exited]⟩

def exSt6 : SCState := ⟨[], 0, [], false, [.holding exSensor, .exited]⟩

lemma exStep01 : Step exCfg exInit (.popOk 0 exSensor) exSt1 := by
  have h := @Step.popOk exCfg exInit 0 exSensor [] (by decide) (by decide) (by decide)
  have he : ({ exInit with queue := [], workers := exInit.workers.set 0 (.holding exSensor) } : SCState) = exSt1 := by decide
  exact he ▸ h

lemma exStep12 : Step exCfg exSt1 (.beginRetrySleep 0 exSensor) exSt2 := by
  have h := @Step.beginRetrySleep exCfg exSt1 0 exSensor true (.ok false)
    (by decide) (by decide)
  have he : ({ exSt1 with
      workers := exSt1.workers.set 0 (.retrySleeping exSensor) } : SCState) = exSt2 := by
    decide
  exact he ▸ h

lemma exStep23 : Step exCfg exSt2 (.popFail 1) exSt3 := by
  have h := @Step.popFail exCfg exSt2 1 (by decide) (by decide) (by decide)
  have he : ({ exSt2 with workers := exSt2.workers.set 1 .lockCheck } : SCState) = exSt3 := by
    decide
  exact he ▸ h

lemma exStep34 : Step exCfg exSt3 (.exitDone 1) exSt4 := by
  have h := @Step.exitDone exCfg exSt3 1 (by decide) (by decide) (by decide)
  have he : ({ exSt3 with workers := exSt3.workers.set 1 .exited } : SCState) = exSt4 := by
    decide
  exact he ▸ h

lemma exStep45 : Step exCfg exSt4 (.retryWake 0 exSensor) exSt5 := by
  have h := @Step.retryWake exCfg exSt4 0 exSensor (by decide)
  have he : ({ exSt4 with queue := exSt4.queue ++ [exSensor], workers := exSt4.workers.set 0 .atTop } : SCState) = exSt5 := by decide
  exact he ▸ h

lemma exStep56 : Step exCfg exSt5 (.popOk 0 exSensor) exSt6 := by
  have h := @Step.popOk exCfg exSt5 0 exSensor [] (by decide) (by decide) (by decide)
  have he : ({ exSt5 with queue := [], workers := exSt5.workers.set 0 (.holding exSensor) } : SCState) = exSt6 := by decide
  exact he ▸ h

lemma exReach3 : Reachable exCfg exInit exSt3 :=
  Reachable.tail (Reachable.tail (Reachable.tail Reachable.refl exStep01) exStep12) exStep23

lemma exReach4 : Reachable exCfg exInit exSt4 := Reachable.tail exReach3 exStep34

end ConcreteTrace

/-- Configuration with every callback supplied and no filters. -/
def exCfgAll : Config := ⟨true, true, true, none, true, true, true, true, 60⟩

lemma visit_of_platformDropped (cfg : Config) (s : Sensor) (online : Bool)
    (chk : CheckOutcome) (hpd : platformDropped cfg s = true) :
    visit cfg s online chk =
      ⟨[], .dropped, consultsPlatform cfg, false, false, 0⟩ := by
  simp [visit, hpd]

lemma visit_of_tagsDropped (cfg : Config) (s : Sensor) (online : Bool)
    (chk : CheckOutcome) (hpd : platformDropped cfg s = false)
    (htd : tagsDropped cfg s = true) :
    visit cfg s online chk =
      ⟨[], .dropped, consultsPlatform cfg, cfg.tags.isSome, false, 0⟩ := by
  simp [visit, hpd, htd]

lemma visit_offline (cfg : Config) (s : Sensor) (chk : CheckOutcome)
    (hpd : platformDropped cfg s = false) (htd : tagsDropped cfg s = false) :
    visit cfg s false chk =
      ⟨(if cfg.cbOnOffline then [Event.onOffline s] else []), .scheduledRecheck,
        consultsPlatform cfg, cfg.tags.isSome, false, 0⟩ := by
  simp [visit, hpd, htd]

lemma visit_exn (cfg : Config) (s : Sensor) (d : String)
    (hpd : platformDropped cfg s = false) (htd : tagsDropped cfg s = false) :
    visit cfg s true (.exn d) =
      ⟨(if cfg.cbOnStartCheck then [Event.onStartCheck s] else [])
          ++ (if cfg.cbOnError then [Event.onError s d] else [])
          ++ (if cfg.cbOnCheckDone then [Event.onCheckDone s] else []),
        .finished, consultsPlatform cfg, cfg.tags.isSome, true, 0⟩ := by
  simp [visit, hpd, htd]

lemma visit_ok_false (cfg : Config) (s : Sensor)
    (hpd : platformDropped cfg s = false) (htd : tagsDropped cfg s = false) :
    visit cfg s true (.ok false) =
      ⟨(if cfg.cbOnStartCheck then [Event.onStartCheck s] else [])
          ++ (if cfg.cbOnOffline then [Event.onOffline s] else []),
        .reEnqueuedAfterSleep, consultsPlatform cfg, cfg.tags.isSome, true,
        cfg.nSecBetweenOnlineChecks⟩ := by
  simp [visit, hpd, htd]

/-- Claim C1, counterexample: with every callback supplied, a visit of an
online unfiltered sensor whose check raises invokes onError once and then
also invokes onCheckDone for that sensor, because the source sets
result = True after the except branch and control falls through to the
cb_on_check_done call at line 152.  This refutes the part of the claim
stating that onCheckDone is never invoked for such a sensor. -/
theorem C1_counterexample :
    Event.onCheckDone exSensor ∈
      (visit exCfgAll exSensor true (.exn "boom")).events ∧
    (visit exCfgAll exSensor true (.exn "boom")).events =
      [Event.onStartCheck exSensor, Event.onError exSensor "boom",
        Event.onCheckDone exSensor] := by
  decide

/-- Claim C1, amended: for a sensor that passes the filters and is online,
if the check callback raises, onError is invoked exactly once with that
sensor and the error detail, the sensor is not re-enqueued (the visit
finishes, and a finishVisit step leaves queue, counter and timers
untouched), and the error is then treated as a completed check, so
onCheckDone is also invoked (when that callback is supplied), right after
onError. -/
theorem C1_error_path (cfg : Config) (s : Sensor) (d : String)
    (hp : platformDropped cfg s = false) (ht : tagsDropped cfg s = false)
    (he : cfg.cbOnError = true) :
    (visit cfg s true (.exn d)).events =
      (if cfg.cbOnStartCheck then [Event.onStartCheck s] else [])
        ++ [Event.onError s d]
        ++ (if cfg.cbOnCheckDone then [Event.onCheckDone s] else []) ∧
    (visit cfg s true (.exn d)).events.count (Event.onError s d) = 1 ∧
    (visit cfg s true (.exn d)).outcome = .finished ∧
    (∀ st st' : SCState, ∀ w : Nat, Step cfg st (.finishVisit w s) st' →
      st'.queue = st.queue ∧ st'.pending = st.pending ∧ st'.timers = st.timers) := by
  have hv := visit_exn cfg s d hp ht
  refine ⟨?_, ?_, ?_, ?_⟩
  · rw [hv]
    simp [he]
  · rw [hv]
    cases hsc : cfg.cbOnStartCheck <;> cases hcd : cfg.cbOnCheckDone <;>
      simp [he, List.count_append, List.count_cons, List.count_nil]
  · rw [hv]
  · intro st st' w hstep
    cases hstep
    exact ⟨rfl, rfl, rfl⟩

/-- Claim C4: for a sensor passing both filters whose isOnline() is
False, onOffline is invoked (when supplied), the visit schedules a
deferred re-check instead of sleeping (sleptSeconds = 0) and never calls
the check callback; the scheduleRecheck step increments the counter by
one under the lock and registers a timer with the configured delay, and
the later fireRecheck step enqueues the sensor and decrements the counter
under the lock. -/
theorem C4_offline_path (cfg : Config) (s : Sensor) (chk : CheckOutcome)
    (hp : platformDropped cfg s = false) (ht : tagsDropped cfg s = false)
    (hcb : cfg.cbOnOffline = true) :
    (visit cfg s false chk).events = [Event.onOffline s] ∧
    (visit cfg s false chk).outcome = .scheduledRecheck ∧
    (visit cfg s false chk).sleptSeconds = 0 ∧
    (visit cfg s false chk).checkInvoked = false ∧
    (∀ st st' : SCState, ∀ w : Nat, Step cfg st (.scheduleRecheck w s) st' →
      st'.pending = st.pending + 1 ∧
      st'.timers = (cfg.nSecBetweenOnlineChecks, s) :: st.timers ∧
      st'.queue = st.queue ∧
      StepLabel.locked (.scheduleRecheck w s) = true ∧
      st'.workers[w]? = some .atTop) ∧
    (∀ st st' : SCState, ∀ d : Nat, Step cfg st (.fireRecheck d s) st' →
      st'.queue = st.queue ++ [s] ∧ st'.pending = st.pending - 1 ∧
      StepLabel.locked (.fireRecheck d s) = true) := by
  have hv := visit_offline cfg s chk hp ht
  refine ⟨?_, ?_, ?_, ?_, ?_, ?_⟩
  · rw [hv]; simp [hcb]
  · rw [hv]
  · rw [hv]
  · rw [hv]
  · intro st st' w hstep
    cases hstep with
    | scheduleRecheck h1 h2 =>
      have hlt : w < st.workers.length := (List.getElem?_eq_some.mp h1).1
      exact ⟨rfl, rfl, rfl, rfl, List.getElem?_set_eq_of_lt _ hlt⟩
  · intro st st' d hstep
    cases hstep
    exact ⟨rfl, rfl, rfl⟩

/-- Claim C5: for a sensor passing both filters, online, whose check
returns False, onOffline is invoked (when supplied) after any
onStartCheck, the worker itself sleeps synchronously for the full
configured retry interval, onCheckDone is not invoked on that visit, and
only after the sleep does the retryWake step append the sensor back to
the queue; the beginRetrySleep step leaves queue, counter and timers
unchanged while the worker holds the sensor. -/
theorem C5_false_result_path (cfg : Config) (s : Sensor)
    (hp : platformDropped cfg s = false) (ht : tagsDropped cfg s = false)
    (hcb : cfg.cbOnOffline = true) :
    (visit cfg s true (.ok false)).events =
      (if cfg.cbOnStartCheck then [Event.onStartCheck s] else [])
        ++ [Event.onOffline s] ∧
    (visit cfg s true (.ok false)).sleptSeconds = cfg.nSecBetweenOnlineChecks ∧
    (visit cfg s true (.ok false)).outcome = .reEnqueuedAfterSleep ∧
    Event.onCheckDone s ∉ (visit cfg s true (.ok false)).events ∧
    (∀ st st' : SCState, ∀ w : Nat, Step cfg st (.beginRetrySleep w s) st' →
      st'.queue = st.queue ∧ st'.pending = st.pending ∧ st'.timers = st.timers ∧
      st'.workers[w]? = some (.retrySleeping s)) ∧
    (∀ st st' : SCState, ∀ w : Nat, Step cfg st (.retryWake w s) st' →
      st'.queue = st.queue ++ [s] ∧ st'.pending = st.pending ∧
      st'.workers[w]? = some .atTop) := by
  have hv := visit_ok_false cfg s hp ht
  refine ⟨?_, ?_, ?_, ?_, ?_, ?_⟩
  · rw [hv]; simp [hcb]
  · rw [hv]
  · rw [hv]
  · rw [hv]
    cases hsc : cfg.cbOnStartCheck <;> simp [hcb]
  · intro st st' w hstep
    cases hstep with
    | beginRetrySleep h1 h2 =>
      have hlt : w < st.workers.length := (List.getElem?_eq_some.mp h1).1
      exact ⟨rfl, rfl, rfl, List.getElem?_set_eq_of_lt _ hlt⟩
  · intro st st' w hstep
    cases hstep with
    | retryWake h1 =>
      have hlt : w < st.workers.length := (List.getElem?_eq_some.mp h1).1
      exact ⟨rfl, rfl, List.getElem?_set_eq_of_lt _ hlt⟩

/-- Claim C6: a sensor dropped by the platform filter or the tag filter
produces no callback invocations at all, its check callback is never
invoked, the worker does not sleep, and the dropSensor step leaves the
queue, the counter and the timers untouched, so the sensor is never
re-enqueued: a silent drop. -/
theorem C6_filtered_silent_drop (cfg : Config) (s : Sensor) (online : Bool)
    (chk : CheckOutcome) (h : (visit cfg s online chk).outcome = .dropped) :
    (visit cfg s online chk).events = [] ∧
    (visit cfg s online chk).checkInvoked = false ∧
    (visit cfg s online chk).sleptSeconds = 0 ∧
    (platformDropped cfg s = true ∨ tagsDropped cfg s = true) ∧
    (∀ st st' : SCState, ∀ w : Nat, Step cfg st (.dropSensor w s) st' →
      st'.queue = st.queue ∧ st'.pending = st.pending ∧ st'.timers = st.timers) := by
  have hd := (visit_dropped_iff cfg s online chk).mp h
  have hstep : ∀ st st' : SCState, ∀ w : Nat, Step cfg st (.dropSensor w s) st' →
      st'.queue = st.queue ∧ st'.pending = st.pending ∧ st'.timers = st.timers := by
    intro st st' w hstep
    cases hstep
    exact ⟨rfl, rfl, rfl⟩
  rcases hd with hpd | ⟨hpd, htd⟩
  · rw [visit_of_platformDropped cfg s online chk hpd]
    exact ⟨rfl, rfl, rfl, Or.inl hpd, hstep⟩
  · rw [visit_of_tagsDropped cfg s online chk hpd htd]
    exact ⟨rfl, rfl, rfl, Or.inr htd, hstep⟩

/-- Claim C7: when at least one of the three platform flags is False the
dequeued sensor platform is fetched; a sensor whose platform is one of
the three known names with its flag disabled is dropped with no events
and no check invocation; a sensor whose platform name has its flag
enabled is not dropped by the platform filter; and when all three flags
are True the platform is never consulted. -/
theorem C7_platform_filter (cfg : Config) (s : Sensor) (online : Bool)
    (chk : CheckOutcome) (hflag : consultsPlatform cfg = true) :
    (visit cfg s online chk).platformFetched = true ∧
    (platformDropped cfg s = true →
      (visit cfg s online chk).outcome = .dropped ∧
      (visit cfg s online chk).events = [] ∧
      (visit cfg s online chk).checkInvoked = false) ∧
    (s.plat = "windows" → cfg.isWindows = false → platformDropped cfg s = true) ∧
    (s.plat = "linux" → cfg.isLinux = false → platformDropped cfg s = true) ∧
    (s.plat = "macos" → cfg.isMacos = false → platformDropped cfg s = true) ∧
    (s.plat = "windows" → cfg.isWindows = true → platformDropped cfg s = false) ∧
    (s.plat = "linux" → cfg.isLinux = true → platformDropped cfg s = false) ∧
    (s.plat = "macos" → cfg.isMacos = true → platformDropped cfg s = false) ∧
    (∀ cfg' : Config, ∀ s' : Sensor, ∀ online' : Bool, ∀ chk' : CheckOutcome,
      cfg'.isWindows = true → cfg'.isLinux = true → cfg'.isMacos = true →
      (visit cfg' s' online' chk').platformFetched = false) := by
  refine ⟨?_, ?_, ?_, ?_, ?_, ?_, ?_, ?_, ?_⟩
  · rw [visit_platformFetched cfg s online chk, hflag]
  · intro hpd
    rw [visit_of_platformDropped cfg s online chk hpd]
    exact ⟨rfl, rfl, rfl⟩
  · intro hs hf
    simp [platformDropped, hflag, hs, hf]
  · intro hs hf
    simp [platformDropped, hflag, hs, hf]
  · intro hs hf
    simp [platformDropped, hflag, hs, hf]
  · intro hs hf
    simp [platformDropped, hflag, hs, hf]
  · intro hs hf
    simp [platformDropped, hflag, hs, hf]
  · intro hs hf
    simp [platformDropped, hflag, hs, hf]
  · intro cfg' s' online' chk' h1 h2 h3
    rw [visit_platformFetched cfg' s' online' chk']
    simp [consultsPlatform, h1, h2, h3]

/-- Claim C9: a sensor whose platform is none of the three known names
is never dropped by the platform filter, whatever the flags; it proceeds
to the tag filter (the tags are fetched exactly when a required-tag set
is configured) and, when the tag filter passes, on to the check (the
visit does not end in a drop). -/
theorem C9_unknown_platform_passes (cfg : Config) (s : Sensor) (online : Bool)
    (chk : CheckOutcome)
    (hw : s.plat ≠ "windows") (hl : s.plat ≠ "linux") (hm : s.plat ≠ "macos") :
    platformDropped cfg s = false ∧
    (visit cfg s online chk).tagsFetched = cfg.tags.isSome ∧
    (tagsDropped cfg s = false → (visit cfg s online chk).outcome ≠ .dropped) := by
  have hpd : platformDropped cfg s = false := by
    simp [platformDropped, hw, hl, hm]
  refine ⟨hpd, visit_tagsFetched cfg s online chk hpd, ?_⟩
  intro htd hcontra
  have := (visit_dropped_iff cfg s online chk).mp hcontra
  simp [hpd, htd] at this

/-- Claim C3: in every state reachable from a start state the counter
_pendingReCheck equals the number of outstanding re-check timers and is
therefore never negative; every step that changes it holds the lock; it
is incremented (by one) exactly by the scheduleRecheck steps that park
an offline sensor in a delayed re-check, and decremented (by one)
exactly by the fireRecheck steps in which the deferred re-check also
puts the sensor back into the queue. -/
theorem C3_pending_invariant (cfg : Config) (sensors : List Sensor) (n : Nat)
    (st : SCState) (hr : Reachable cfg (startState sensors n) st) :
    0 ≤ st.pending ∧
    st.pending = (st.timers.length : Int) ∧
    (∀ l : StepLabel, ∀ st' : SCState, Step cfg st l st' →
      st'.pending ≠ st.pending → StepLabel.locked l = true ∧
        ((∃ w s, l = .scheduleRecheck w s ∧ st'.pending = st.pending + 1) ∨
          (∃ d s, l = .fireRecheck d s ∧ st'.pending = st.pending - 1))) ∧
    (∀ w : Nat, ∀ s : Sensor, ∀ st' : SCState,
      Step cfg st (.scheduleRecheck w s) st' → st'.pending = st.pending + 1) ∧
    (∀ d : Nat, ∀ s : Sensor, ∀ st' : SCState,
      Step cfg st (.fireRecheck d s) st' →
        st'.pending = st.pending - 1 ∧ st'.queue = st.queue ++ [s]) := by
  have hinv := reachable_pendingMatchesTimers hr
  refine ⟨?_, hinv, ?_, ?_, ?_⟩
  · rw [hinv]
    exact Int.natCast_nonneg _
  · intro l st' hstep hne
    exact step_pending_change hstep hne
  · intro w s st' hstep
    cases hstep
    rfl
  · intro d s st' hstep
    cases hstep
    exact ⟨rfl, rfl⟩

/-- Claim C2, counterexample: from the start state with one sensor and
two workers the scheduler reaches a state where worker 0 holds the
sensor in its synchronous false-result retry sleep while the pending
counter is zero and the queue is empty; worker 1 then passes the atomic
exit check and exits, and only afterwards does worker 0 re-enqueue the
sensor.  So a worker does exit while a sensor can still legitimately
return to the queue, refuting the final clause of the claim. -/
theorem C2_counterexample :
    Reachable exCfg exInit exSt3 ∧
    exSt3.workers[0]? = some (.retrySleeping exSensor) ∧
    exSt3.stopFlag = false ∧
    exSt3.pending = 0 ∧ exSt3.queue = [] ∧
    Step exCfg exSt3 (.exitDone 1) exSt4 ∧
    exSt4.workers[1]? = some .exited ∧
    Step exCfg exSt4 (.retryWake 0 exSensor) exSt5 ∧
    exSt5.queue = [exSensor] :=
  ⟨exReach3, by decide, by decide, by decide, by decide, exStep34, by decide,
    exStep45, by decide⟩

/-- Claim C2, amended: while the stop flag is clear, the only step that
makes a worker exit is its own exitDone step, taken from the post-pop
lock check with the pending counter zero and the queue empty, under the
lock; and every backoff step (the empty pop whose lock check fails)
puts that worker to sleep and changes neither queue nor counter.  The
guarantee covers sensors in the queue and sensors parked in re-check
timers, but not a sensor held by another worker inside its synchronous
false-result retry sleep: that worker has not exited, and it alone
re-enqueues the held sensor. -/
theorem C2_exit_condition (cfg : Config) (st st' : SCState) (l : StepLabel)
    (w : Nat) (ph : WPhase) (hstep : Step cfg st l st')
    (hstop : st.stopFlag = false)
    (hph : st.workers[w]? = some ph) (hne : ph ≠ .exited)
    (hex : st'.workers[w]? = some .exited) :
    l = .exitDone w ∧ ph = .lockCheck ∧ st.pending = 0 ∧ st.queue = [] ∧
      StepLabel.locked l = true ∧
      (∀ u : Nat, ∀ stb : SCState, Step cfg st (.backoff u) stb →
        ¬(st.pending = 0 ∧ st.queue = []) ∧ stb.workers[u]? = some .sleeping ∧
        stb.queue = st.queue ∧ stb.pending = st.pending) := by
  have hback : ∀ u : Nat, ∀ stb : SCState, Step cfg st (.backoff u) stb →
      ¬(st.pending = 0 ∧ st.queue = []) ∧ stb.workers[u]? = some .sleeping ∧
      stb.queue = st.queue ∧ stb.pending = st.pending := by
    intro u stb hb
    cases hb with
    | backoff h1 h2 =>
      have hlt : u < st.workers.length := (List.getElem?_eq_some.mp h1).1
      exact ⟨h2, List.getElem?_set_eq_of_lt _ hlt, rfl, rfl⟩
  cases hstep with
  | popOk h1 h2 h3 =>
    rcases workers_set_exited hph hne hex with ⟨rfl, hc⟩
    exact absurd hc (by simp)
  | popFail h1 h2 h3 =>
    rcases workers_set_exited hph hne hex with ⟨rfl, hc⟩
    exact absurd hc (by simp)
  | exitDone h1 h2 h3 =>
    rcases workers_set_exited hph hne hex with ⟨rfl, _⟩
    rw [hph] at h1
    exact ⟨rfl, Option.some_inj.mp h1, h2, h3, rfl, hback⟩
  | backoff h1 h2 =>
    rcases workers_set_exited hph hne hex with ⟨rfl, hc⟩
    exact absurd hc (by simp)
  | backoffWake h1 =>
    rcases workers_set_exited hph hne hex with ⟨rfl, hc⟩
    exact absurd hc (by simp)
  | dropSensor h1 h2 =>
    rcases workers_set_exited hph hne hex with ⟨rfl, hc⟩
    exact absurd hc (by simp)
  | scheduleRecheck h1 h2 =>
    rcases workers_set_exited hph hne hex with ⟨rfl, hc⟩
    exact absurd hc (by simp)
  | beginRetrySleep h1 h2 =>
    rcases workers_set_exited hph hne hex with ⟨rfl, hc⟩
    exact absurd hc (by simp)
  | finishVisit h1 h2 =>
    rcases workers_set_exited hph hne hex with ⟨rfl, hc⟩
    exact absurd hc (by simp)
  | retryWake h1 =>
    rcases workers_set_exited hph hne hex with ⟨rfl, hc⟩
    exact absurd hc (by simp)
  | fireRecheck h1 =>
    have hex' : st.workers[w]? = some WPhase.exited := hex
    rw [hph] at hex'
    exact absurd (Option.some_inj.mp hex') hne
  | setStop =>
    have hex' : st.workers[w]? = some WPhase.exited := hex
    rw [hph] at hex'
    exact absurd (Option.some_inj.mp hex') hne
  | stopExit h1 h2 =>
    rw [h2] at hstop
    exact absurd hstop (by simp)

/-- Claim C8: stop() sets the stop event and then joins the greenlet
group, which contains every worker greenlet and every spawn_later
re-check greenlet; so once the join condition holds (all workers exited,
all timers fired) no worker is running, and no step can mutate the
queue, the counter, the timers or the workers any more: the only
enabled transition is re-setting the stop flag, which preserves the
join condition.  Setting the stop flag itself also preserves it. -/
theorem C8_stop_quiescence (cfg : Config) (st : SCState)
    (h : joinDone st = true) :
    (∀ ph ∈ st.workers, ph = WPhase.exited) ∧
    st.timers = [] ∧
    joinDone (setStopFlag st) = true ∧
    (∀ l : StepLabel, ∀ st' : SCState, Step cfg st l st' →
      st'.queue = st.queue ∧ st'.pending = st.pending ∧
      st'.timers = st.timers ∧ st'.workers = st.workers ∧
      joinDone st' = true) := by
  simp only [joinDone, Bool.and_eq_true, List.all_eq_true, beq_iff_eq,
    List.isEmpty_iff] at h
  obtain ⟨hall, htim⟩ := h
  have hnotidle : ∀ (w : Nat) (ph : WPhase), st.workers[w]? = some ph →
      ph = WPhase.exited := by
    intro w ph hw
    exact hall ph (List.getElem?_mem hw)
  refine ⟨hall, htim, ?_, ?_⟩
  · simp only [joinDone, setStopFlag, Bool.and_eq_true, List.all_eq_true,
      beq_iff_eq, List.isEmpty_iff]
    exact ⟨hall, htim⟩
  · intro l st' hstep
    cases hstep with
    | popOk h1 h2 h3 => exact absurd (hnotidle _ _ h1) (by simp)
    | popFail h1 h2 h3 => exact absurd (hnotidle _ _ h1) (by simp)
    | exitDone h1 h2 h3 => exact absurd (hnotidle _ _ h1) (by simp)
    | backoff h1 h2 => exact absurd (hnotidle _ _ h1) (by simp)
    | backoffWake h1 => exact absurd (hnotidle _ _ h1) (by simp)
    | dropSensor h1 h2 => exact absurd (hnotidle _ _ h1) (by simp)
    | scheduleRecheck h1 h2 => exact absurd (hnotidle _ _ h1) (by simp)
    | beginRetrySleep h1 h2 => exact absurd (hnotidle _ _ h1) (by simp)
    | finishVisit h1 h2 => exact absurd (hnotidle _ _ h1) (by simp)
    | retryWake h1 => exact absurd (hnotidle _ _ h1) (by simp)
    | fireRecheck h1 =>
      rw [htim] at h1
      exact absurd h1.symm (List.append_ne_nil_of_right_ne_nil _ (by simp))
    | setStop =>
      refine ⟨rfl, rfl, rfl, rfl, ?_⟩
      simp only [joinDone, Bool.and_eq_true, List.all_eq_true, beq_iff_eq,
        List.isEmpty_iff]
      exact ⟨hall, htim⟩
    | stopExit h1 h2 => exact absurd (hnotidle _ _ h1) (by simp)

/-- Claim C10: the false-result retry path never touches the pending
counter: beginRetrySleep and retryWake both preserve it (and the
timers), and while a worker is in its retry sleep the held sensor is in
neither the queue nor the counter.  Concretely, from one sensor and two
workers the scheduler reaches a state where worker 0 is in the retry
sleep holding the sensor, the counter is zero and the queue empty, and
worker 1 passes the atomic exit check and exits.  The only step that
moves a worker out of the retry sleep is its own retryWake, which
always appends the held sensor back onto the queue; in the concrete
run, worker 0 then re-enqueues the sensor and pops it again itself. -/
theorem C10_retry_sleep_gap :
    (∀ cfg : Config, ∀ st st' : SCState, ∀ w : Nat, ∀ s : Sensor,
      Step cfg st (.beginRetrySleep w s) st' →
        st'.pending = st.pending ∧ st'.timers = st.timers ∧
        st'.queue = st.queue) ∧
    (∀ cfg : Config, ∀ st st' : SCState, ∀ w : Nat, ∀ s : Sensor,
      Step cfg st (.retryWake w s) st' →
        st'.pending = st.pending ∧ st'.timers = st.timers ∧
        st'.queue = st.queue ++ [s]) ∧
    (∀ cfg : Config, ∀ st st' : SCState, ∀ l : StepLabel, ∀ w : Nat,
      ∀ s : Sensor,
      Step cfg st l st' → st.workers[w]? = some (.retrySleeping s) →
      st'.workers[w]? ≠ some (.retrySleeping s) →
      l = .retryWake w s ∧ st'.queue = st.queue ++ [s]) ∧
    (Reachable exCfg exInit exSt3 ∧
      exSt3.workers[0]? = some (.retrySleeping exSensor) ∧
      exSt3.pending = 0 ∧ exSt3.queue = [] ∧ exSt3.timers = [] ∧
      Step exCfg exSt3 (.exitDone 1) exSt4 ∧
      exSt4.workers[1]? = some .exited ∧
      Step exCfg exSt4 (.retryWake 0 exSensor) exSt5 ∧
      exSt5.queue = [exSensor] ∧
      Step exCfg exSt5 (.popOk 0 exSensor) exSt6 ∧
      exSt6.workers[0]? = some (.holding exSensor)) := by
  refine ⟨?_, ?_, ?_, exReach3, by decide, by decide, by decide, by decide,
    exStep34, by decide, exStep45, by decide, exStep56, by decide⟩
  · intro cfg st st' w s hstep
    cases hstep
    exact ⟨rfl, rfl, rfl⟩
  · intro cfg st st' w s hstep
    cases hstep
    exact ⟨rfl, rfl, rfl⟩
  · intro cfg st st' l w s hstep hph hmoved
    cases hstep with
    | popOk h1 h2 h3 =>
      rcases workers_set_changed hph hmoved with rfl
      rw [hph] at h1
      exact absurd (Option.some_inj.mp h1) (by simp)
    | popFail h1 h2 h3 =>
      rcases workers_set_changed hph hmoved with rfl
      rw [hph] at h1
      exact absurd (Option.some_inj.mp h1) (by simp)
    | exitDone h1 h2 h3 =>
      rcases workers_set_changed hph hmoved with rfl
      rw [hph] at h1
      exact absurd (Option.some_inj.mp h1) (by simp)
    | backoff h1 h2 =>
      rcases workers_set_changed hph hmoved with rfl
      rw [hph] at h1
      exact absurd (Option.some_inj.mp h1) (by simp)
    | backoffWake h1 =>
      rcases workers_set_changed hph hmoved with rfl
      rw [hph] at h1
      exact absurd (Option.some_inj.mp h1) (by simp)
    | dropSensor h1 h2 =>
      rcases workers_set_changed hph hmoved with rfl
      rw [hph] at h1
      exact absurd (Option.some_inj.mp h1) (by simp)
    | scheduleRecheck h1 h2 =>
      rcases workers_set_changed hph hmoved with rfl
      rw [hph] at h1
      exact absurd (Option.some_inj.mp h1) (by simp)
    | beginRetrySleep h1 h2 =>
      rcases workers_set_changed hph hmoved with rfl
      rw [hph] at h1
      exact absurd (Option.some_inj.mp h1) (by simp)
    | finishVisit h1 h2 =>
      rcases workers_set_changed hph hmoved with rfl
      rw [hph] at h1
      exact absurd (Option.some_inj.mp h1) (by simp)
    | retryWake h1 =>
      rcases workers_set_changed hph hmoved with rfl
      rw [hph] at h1
      have hs := Option.some_inj.mp h1
      cases hs
      exact ⟨rfl, rfl⟩
    | fireRecheck h1 =>
      exact absurd hph hmoved
    | setStop =>
      exact absurd hph hmoved
    | stopExit h1 h2 =>
      rcases workers_set_changed hph hmoved with rfl
      rw [hph] at h1
      exact absurd (Option.some_inj.mp h1) (by simp)

section Witnesses

/-- A Windows sensor, for exercising the platform filter. -/
def winSensor : Sensor := ⟨1, "windows", []⟩

/-- A sensor with a platform name outside the three known ones. -/
def solSensor : Sensor := ⟨2, "solaris", []⟩

/-- Configuration excluding Windows, all callbacks supplied. -/
def cfgNoWin : Config := ⟨false, true, true, none, true, true, true, true, 60⟩

/-- Configuration with all three platform flags disabled. -/
def cfgAllOff : Config := ⟨false, false, false, none, true, true, true, true, 60⟩

/-- A finished scheduler state: one exited worker, nothing outstanding. -/
def doneState : SCState := ⟨[], 0, [], false, [.exited]⟩

theorem C1_error_path_witness :
    (visit exCfgAll exSensor true (.exn "boom")).outcome = VisitEnd.finished :=
  (C1_error_path exCfgAll exSensor "boom" (by decide) (by decide)
    (by decide)).2.2.1

theorem C2_exit_condition_witness : exSt3.pending = 0 ∧ exSt3.queue = [] := by
  have h := C2_exit_condition exCfg exSt3 exSt4 (.exitDone 1) 1 .lockCheck
    exStep34 (by decide) (by decide) (by decide) (by decide)
  exact ⟨h.2.2.1, h.2.2.2.1⟩

theorem C3_pending_invariant_witness : 0 ≤ (startState [] 1).pending :=
  (C3_pending_invariant exCfg [] 1 (startState [] 1) Reachable.refl).1

theorem C4_offline_path_witness :
    (visit exCfgAll exSensor false (.ok true)).outcome =
      VisitEnd.scheduledRecheck :=
  (C4_offline_path exCfgAll exSensor (.ok true) (by decide) (by decide)
    (by decide)).2.1

theorem C5_false_result_path_witness :
    (visit exCfgAll exSensor true (.ok false)).sleptSeconds =
      exCfgAll.nSecBetweenOnlineChecks :=
  (C5_false_result_path exCfgAll exSensor (by decide) (by decide)
    (by decide)).2.1

theorem C6_filtered_silent_drop_witness :
    (visit cfgNoWin winSensor true (.ok true)).events = [] :=
  (C6_filtered_silent_drop cfgNoWin winSensor true (.ok true) (by decide)).1

theorem C7_platform_filter_witness :
    (visit cfgNoWin winSensor true (.ok true)).platformFetched = true :=
  (C7_platform_filter cfgNoWin winSensor true (.ok true) (by decide)).1

theorem C8_stop_quiescence_witness : doneState.timers = [] :=
  (C8_stop_quiescence exCfg doneState (by decide)).2.1

theorem C9_unknown_platform_passes_witness :
    platformDropped cfgAllOff solSensor = false :=
  (C9_unknown_platform_passes cfgAllOff solSensor true (.ok true) (by decide)
    (by decide) (by decide)).1

end Witnesses

end SpotCheckModel
